import Mathlib

/-!
Verification development for the DuckIt uploader's conversion-and-publish
pipeline.  The definitions below are shallow embeddings of the TypeScript
source (`src/lib/duckdb.ts`, `src/lib/pushToRemote.ts`, `src/pages/Home.tsx`):
pure functions become Lean functions, the stateful embedded engine becomes
explicit state passing, fallible operations return `Except`/`Option`, and
floating-point megabyte quantities are modelled over `ℚ` (the verified
properties are order-theoretic comparisons, exact on the values involved).
-/

namespace DuckIt

/-! ## Character and string helpers mirroring the JavaScript operations used
by the source (`String.prototype.split`, `match(/c/g).length`, `toLowerCase`,
`split('.').pop()`, regex extension tests). -/

/-- Number of occurrences of character `c` in `s`
(JS `(s.match(/c/g) || []).length`). -/
def countChar (s : String) (c : Char) : Nat :=
  (s.data.filter (fun x => x = c)).length

/-- Characters of `l` up to (excluding) the first occurrence of `c`. -/
def takeUntil (c : Char) : List Char → List Char
  | [] => []
  | x :: xs => if x = c then [] else x :: takeUntil c xs

/-- JS `text.split('\n')[0] || ''`: the first line of a text. -/
def firstLine (s : String) : String :=
  String.mk (takeUntil '\n' s.data)

/-- JS `String.prototype.split(c)` on a character list; always nonempty. -/
def splitChar (c : Char) : List Char → List (List Char)
  | [] => [[]]
  | x :: xs =>
    let rest := splitChar c xs
    if x = c then [] :: rest
    else
      match rest with
      | [] => [[x]]
      | r :: rs => (x :: r) :: rs

/-- ASCII lower-casing of a string, character by character
(JS `toLowerCase`; the filenames involved are ASCII). -/
def lowerStr (s : String) : String :=
  String.mk (s.data.map Char.toLower)

/-- JS `filename.toLowerCase().split('.').pop()`: the part after the last
dot, or the whole (lower-cased) name when it has no dot. -/
def fileExtension (filename : String) : String :=
  String.mk ((splitChar '.' (lowerStr filename).data).getLastD [])

/-- JS `s.endsWith(pat)` over the character representation. -/
def strEndsWith (s pat : String) : Bool :=
  decide (pat.data.length ≤ s.data.length ∧
    s.data.drop (s.data.length - pat.data.length) = pat.data)

/-! ## Delimiter detection (`src/lib/duckdb.ts`, `detectDelimiter`,
lines 107–124, and the extension dispatch of `importCSV`, lines 133–147).
`detectDelimiter` receives the text of the first ≈8 KB sample of the file;
the byte slice is modelled as a character prefix by `sampleText`. -/

/-- The first 8192 characters of the file content
(JS `file.slice(0, 8192)` followed by `.text()`). -/
def sampleText (content : String) : String :=
  String.mk (content.data.take 8192)

/-- `detectDelimiter` from `src/lib/duckdb.ts`: count pipes, tabs and commas
in the first line of the sample and pick the winner, pipe first, then tab,
comma as the fallback. -/
def detectDelimiter (sample : String) : Char :=
  let fl := firstLine sample
  let pipeCount := countChar fl '|'
  let tabCount := countChar fl '\t'
  let commaCount := countChar fl ','
  if pipeCount > 0 ∧ pipeCount ≥ tabCount ∧ pipeCount ≥ commaCount then '|'
  else if tabCount > 0 ∧ tabCount ≥ commaCount then '\t'
  else ','

/-- The delimiter-selection logic of `importCSV` (`src/lib/duckdb.ts`,
lines 133–147): reserved extensions `pipe`/`psv` force pipe, `tsv` forces
tab, `txt` and every other extension fall back to content detection. -/
def chooseDelimiter (filename : String) (sample : String) : Char :=
  let ext := fileExtension filename
  if ext = "pipe" ∨ ext = "psv" then '|'
  else if ext = "tsv" then '\t'
  else if ext = "txt" then detectDelimiter sample
  else detectDelimiter sample

/-- The content-inference rule as the specification words it: "selecting the
delimiter with the highest count, with comma as the default tie-break and
fallback" — on any tie for the highest count the spec's rule answers comma.
Stated only to be compared against `detectDelimiter`, which the source
actually implements. -/
def specCommaTieBreakDelimiter (sample : String) : Char :=
  let fl := firstLine sample
  let pipeCount := countChar fl '|'
  let tabCount := countChar fl '\t'
  let commaCount := countChar fl ','
  if pipeCount > tabCount ∧ pipeCount > commaCount then '|'
  else if tabCount > pipeCount ∧ tabCount > commaCount then '\t'
  else ','

/-! ## Table metadata, manifest and DDL (`src/lib/pushToRemote.ts`,
`exportAsZipBundle`, lines 160–254, and `src/lib/duckdb.ts`,
`exportToDuckDB`, lines 283–296).  `TableInfo` is the metadata returned by
`getTables` (name, row count, ordered columns); the manifest and `schema.sql`
texts are synthesized from it exactly as the source does. -/

/-- One column of a table: name and inferred type string. -/
structure ColumnInfo where
  name : String
  type : String
deriving DecidableEq, Repr

/-- The metadata of one table as reported by `getTables`. -/
structure TableInfo where
  name : String
  rowCount : Nat
  columns : List ColumnInfo
deriving DecidableEq, Repr

/-- One entry of the manifest: `{ name, files: [fileName], rowCount }`. -/
structure ManifestEntry where
  name : String
  files : List String
  rowCount : Nat
deriving DecidableEq, Repr

/-- The manifest's table list, one entry per table in order
(`manifest.tables.push({ name, files: [fileName], rowCount })`). -/
def manifestEntries (tables : List TableInfo) : List ManifestEntry :=
  tables.map (fun t => ⟨t.name, [t.name ++ ".parquet"], t.rowCount⟩)

/-- JSON string escaping for the characters that can require it
(`JSON.stringify` of a member string; table names are filename-derived and
already stripped to word characters, so quote and backslash cover them). -/
def jsonEscape (s : String) : String :=
  String.mk (s.data.foldr
    (fun c acc =>
      if c = '\\' then '\\' :: '\\' :: acc
      else if c = '"' then '\\' :: '"' :: acc
      else c :: acc) [])

/-- A JSON string literal. -/
def jsonStr (s : String) : String := "\"" ++ jsonEscape s ++ "\""

/-- The `JSON.stringify(entry, null, 2)` rendering of one manifest entry at
its nesting depth inside the manifest. -/
def manifestEntryJson (e : ManifestEntry) : String :=
  "    \x7b\n      \"name\": " ++ jsonStr e.name ++
  ",\n      \"files\": [\n" ++
  String.intercalate ",\n" (e.files.map (fun f => "        " ++ jsonStr f)) ++
  "\n      ],\n      \"rowCount\": " ++ toString e.rowCount ++ "\n    \x7d"

/-- `JSON.stringify(manifest, null, 2)` where
`manifest = { tables: [...], chunked: false }`. -/
def manifestJson (tables : List TableInfo) : String :=
  match manifestEntries tables with
  | [] => "\x7b\n  \"tables\": [],\n  \"chunked\": false\n\x7d"
  | es =>
    "\x7b\n  \"tables\": [\n" ++ String.intercalate ",\n" (es.map manifestEntryJson) ++
    "\n  ],\n  \"chunked\": false\n\x7d"

/-- The column list of one `CREATE TABLE` statement
(`columns.map(c => `"${c.name}" ${c.type}`).join(',\n  ')`). -/
def ddlColumns (cols : List ColumnInfo) : String :=
  String.intercalate ",\n  " (cols.map (fun c => "\"" ++ c.name ++ "\" " ++ c.type))

/-- One DDL statement:
`CREATE TABLE "${t.name}" (\n  ${columns}\n);`. -/
def ddlStatement (t : TableInfo) : String :=
  "CREATE TABLE \"" ++ t.name ++ "\"" ++ " (\n  " ++ ddlColumns t.columns ++ "\n);"

/-- The DDL statements in table order (`schemaStatements` in the source). -/
def schemaStatements (tables : List TableInfo) : List String :=
  tables.map ddlStatement

/-- The `schema.sql` member: statements joined by blank lines. -/
def schemaSql (tables : List TableInfo) : String :=
  String.intercalate "\n\n" (schemaStatements tables)

/-! ## The embedded engine's session state.  The engine itself (DuckDB-WASM)
is an external collaborator; the spec treats it as a capability ("can load
delimited text into a named table with inferred types, …").  Its table store
and virtual file system are modelled explicitly so that the SQL the source
issues (`CREATE OR REPLACE TABLE … AS SELECT * FROM read_csv(…)`,
`COPY … TO '…' (FORMAT PARQUET)`) has semantics to act on. -/

/-- The data of one stored table: ordered columns and row count. -/
structure TableData where
  columns : List ColumnInfo
  rowCount : Nat
deriving DecidableEq, Repr

/-- Update (or create) the binding of a key in an association list,
preserving the positions of the other bindings. -/
def setAssoc {α : Type} : List (String × α) → String → α → List (String × α)
  | [], key, val => [(key, val)]
  | (k, v) :: rest, key, val =>
    if k = key then (key, val) :: rest else (k, v) :: setAssoc rest key val

/-- Look a key up in an association list. -/
def getAssoc {α : Type} : List (String × α) → String → Option α
  | [], _ => none
  | (k, v) :: rest, key => if k = key then some v else getAssoc rest key

/-- The engine's table store, in the enumeration order `getTables` reports. -/
abbrev TableStore := List (String × TableData)

/-- The lines of a text (JS `content.split('\n')`). -/
def splitLines (content : String) : List String :=
  (splitChar '\n' content.data).map String.mk

/-- The fields of one delimited line. -/
def splitFields (delim : Char) (line : String) : List String :=
  (splitChar delim line.data).map String.mk

/-- Whether a field value reads as an integer (used by the modelled type
inference). -/
def isIntValue (s : String) : Bool :=
  if s = "" then false else s.data.all (fun c => c.isDigit)

/-- Modelled from the spec: the engine's column-type inference scans the
entire file content (`sample_size=-1`), so a column's declared type is a
function of all of its values.  The concrete type lattice of the engine is
irrelevant to the claims; a two-point one (integer column / text column)
stands in for it. -/
def inferType (vals : List String) : String :=
  if vals.all isIntValue then "BIGINT" else "VARCHAR"

/-- Modelled from the spec: the engine's `read_csv` capability — "can load
delimited text into a named table with inferred types".  The first nonempty
line is the header, the remaining nonempty lines are the rows, and each
column's type is inferred from all of its values.  Deterministic in
(content, delimiter). -/
def readCsv (content : String) (delim : Char) : TableData :=
  let lines := (splitLines content).filter (fun l => l ≠ "")
  match lines with
  | [] => ⟨[], 0⟩
  | header :: rows =>
    let names := splitFields delim header
    let cols := (List.range names.length).map (fun i =>
      ColumnInfo.mk (names.getD i "")
        (inferType (rows.map (fun r => (splitFields delim r).getD i ""))))
    ⟨cols, rows.length⟩

/-- Modelled from the spec: `CREATE OR REPLACE TABLE name AS …` — the new
definition fully replaces any existing table of that name (no append, no
column union); other tables are untouched. -/
def createOrReplaceTable (st : TableStore) (tableName : String) (t : TableData) : TableStore :=
  setAssoc st tableName t

/-- `importCSV` (`src/lib/duckdb.ts`, lines 126–158): choose the delimiter
from the extension and the 8 KB sample, then issue
`CREATE OR REPLACE TABLE "${tableName}" AS SELECT * FROM read_csv(…)`. -/
def importCSV (st : TableStore) (filename content tableName : String) : TableStore :=
  let delimiter := chooseDelimiter filename (sampleText content)
  createOrReplaceTable st tableName (readCsv content delimiter)

/-- The engine session: the table store plus the virtual file system, whose
files are abstracted to their byte length (the estimator only ever measures
lengths). -/
structure EngineState where
  tables : TableStore
  vfiles : List (String × Nat)
deriving DecidableEq

/-- The loop body of `estimateDatabaseSize`: for each table, `COPY` it to
`_estimate_<name>.parquet` in the virtual file system, read the file's
length, and accumulate.  `parquetBytes` is the engine's (deterministic)
Parquet encoding size for a table's data. -/
def estimateLoop (parquetBytes : TableData → Nat) :
    TableStore → List (String × Nat) → Nat × List (String × Nat)
  | [], vf => (0, vf)
  | (n, t) :: rest, vf =>
    let size := parquetBytes t
    let r := estimateLoop parquetBytes rest
      (setAssoc vf ("_estimate_" ++ n ++ ".parquet") size)
    (size + r.1, r.2)

/-- `estimateDatabaseSize` (`src/lib/duckdb.ts`, lines 241–261): zero when
no table exists, otherwise export each table to a transient Parquet virtual
file, sum the lengths, and return the total.  The buffers are dropped after
measuring; only the virtual-file side of the engine state changes. -/
def estimateDatabaseSize (parquetBytes : TableData → Nat) (st : EngineState) :
    Nat × EngineState :=
  if st.tables = [] then (0, st)
  else
    let r := estimateLoop parquetBytes st.tables st.vfiles
    (r.1, ⟨st.tables, r.2⟩)

/-! ## Identity, tiers, limits and upload validation
(`src/lib/neon-db.ts` — concatenated into `src/lib/duckdb.ts` in this
snapshot — `getStorageTier`, `validateUpload`, lines 497–599). -/

/-- A user's role (`'pro' | 'admin'`). -/
inductive Role
  | pro
  | admin
deriving DecidableEq, Repr

/-- A storage tier (`'temp' | 'persistent' | 'permanent'`). -/
inductive StorageTier
  | temp
  | persistent
  | permanent
deriving DecidableEq, Repr

/-- `getStorageTier(role)`: admin ⇒ permanent, pro ⇒ persistent. -/
def getStorageTier : Role → StorageTier
  | Role.admin => StorageTier.permanent
  | Role.pro => StorageTier.persistent

/-- `getEffectiveStorageTier` (`src/pages/Home.tsx`, lines 134–140): the
tier actually requested — `temp` unless the caller is allow-listed and the
persistent checkbox is checked, in which case the user's tier. -/
def getEffectiveStorageTier (isAllowed checkboxChecked : Bool)
    (userStorageTier : StorageTier) : StorageTier :=
  if isAllowed = false ∨ checkboxChecked = false then StorageTier.temp
  else userStorageTier

/-- The effective limits record (`limits.max_files ?? null`,
`limits.max_file_size_mb ?? null`); `none` means unlimited. -/
structure Limits where
  max_files : Option Nat
  max_file_size_mb : Option ℚ
deriving DecidableEq

/-- Which rule a `validateUpload` denial came from, with its detail. -/
inductive ValidationReason
  | fileCountLimit (currentCount : Nat) (maxCount : Nat)
  | fileSizeLimit (fileSizeMb : ℚ) (maxFileSizeMb : ℚ)
deriving DecidableEq

/-- The result record of `validateUpload`. -/
structure UploadValidation where
  allowed : Bool
  reason : Option ValidationReason
  userFileCount : Nat
  maxFiles : Option Nat
deriving DecidableEq

/-- The per-user file-size rule of `validateUpload` (its second check). -/
def validateFileSize (userFileCount : Nat) (fileSizeMb : ℚ) (limits : Limits) :
    UploadValidation :=
  match limits.max_file_size_mb with
  | some maxFileSizeMb =>
    if fileSizeMb > maxFileSizeMb then
      ⟨false, some (ValidationReason.fileSizeLimit fileSizeMb maxFileSizeMb),
        userFileCount, limits.max_files⟩
    else ⟨true, none, userFileCount, limits.max_files⟩
  | none => ⟨true, none, userFileCount, limits.max_files⟩

/-- `validateUpload` (`src/lib/neon-db.ts`, lines 558–599): the file-count
quota first (`maxFiles !== null && userFileCount >= maxFiles` denies with
the current count and the maximum), then the per-user size rule.
`userFileCount` is the queried count of the identity's non-deleted
persisted records. -/
def validateUpload (userFileCount : Nat) (fileSizeMb : ℚ) (limits : Limits) :
    UploadValidation :=
  match limits.max_files with
  | some maxFiles =>
    if userFileCount ≥ maxFiles then
      ⟨false, some (ValidationReason.fileCountLimit userFileCount maxFiles),
        userFileCount, some maxFiles⟩
    else validateFileSize userFileCount fileSizeMb limits
  | none => validateFileSize userFileCount fileSizeMb limits

/-! ## Upload admission decisions of the three workflows
(`src/pages/Home.tsx`: `handlePushToRemote` lines 452–527,
`handleQuickUpload` lines 263–341, `handleParquetUploadToServer` lines
741–811, `handleQuickDrop` lines 243–255).  A handler that shows an error
or a limit modal and returns is a denial; reaching the transfer call is
`allow`.  The denial reasons follow the spec's taxonomy
(`ARTIFACT_TOO_LARGE`, `FILE_COUNT_LIMIT`, `STORAGE_FULL`), each carrying
the structured detail the handler surfaces. -/

/-- A structured admission-denial reason with its detail. -/
inductive DenyReason
  | artifactTooLarge (limitMB : ℚ) (actualMB : ℚ)
  | fileCountLimit (currentCount : Nat) (maxCount : Nat)
  | storageFull (availableMB : ℚ) (estimatedMB : ℚ)
deriving DecidableEq

/-- The admission decision: proceed to transfer, or stop with a reason. -/
inductive AdmissionDecision
  | allow
  | deny (reason : DenyReason)
deriving DecidableEq

/-- The remote admission service's status report
(`GET /api/status?tier=…`), restricted to the fields the handlers read. -/
structure StorageStatus where
  available_mb : ℚ
  can_upload : Bool
deriving DecidableEq

/-- JS `x || d` on a number that may be absent: `null`/`undefined` and `0`
are falsy (`validation.maxFiles || 2` in the handlers). -/
def jsOrNat (x : Option Nat) (d : Nat) : Nat :=
  match x with
  | some n => if n = 0 then d else n
  | none => d

/-- The inputs `handlePushToRemote` reads before deciding admission:
identity, checkbox state, the estimator's result, and the two quota
queries' results (`storageStatus = none` models a failed status fetch). -/
structure BuildDbEnv where
  userRole : Role
  keepPersistent : Bool
  isAllowed : Bool
  hasUserEmail : Bool
  userStorageTier : StorageTier
  parquetSizeMb : ℚ
  userFileCount : Nat
  limits : Limits
  storageStatus : Option StorageStatus

/-- The admission phase of `handlePushToRemote` (`src/pages/Home.tsx`,
lines 452–527): admin skips everything; otherwise the 75 MB ceiling on the
×2-inflated estimate is checked first, then — only on the persistent path —
the file-count quota and the capacity quota. -/
def buildDbAdmission (e : BuildDbEnv) : AdmissionDecision :=
  if e.userRole = Role.admin then AdmissionDecision.allow
  else
    let estimatedDuckDbMb := e.parquetSizeMb * 2
    if estimatedDuckDbMb > 75 then
      AdmissionDecision.deny (DenyReason.artifactTooLarge 75 estimatedDuckDbMb)
    else
      let storageTier := getEffectiveStorageTier e.isAllowed e.keepPersistent e.userStorageTier
      if e.keepPersistent = true ∧ e.isAllowed = true ∧ e.hasUserEmail = true ∧
          storageTier ≠ StorageTier.temp then
        let validation := validateUpload e.userFileCount 0 e.limits
        if validation.allowed = false then
          AdmissionDecision.deny
            (DenyReason.fileCountLimit validation.userFileCount (jsOrNat validation.maxFiles 2))
        else
          match e.storageStatus with
          | some storageStatus =>
            if estimatedDuckDbMb > storageStatus.available_mb ∨
                storageStatus.can_upload = false then
              AdmissionDecision.deny
                (DenyReason.storageFull storageStatus.available_mb estimatedDuckDbMb)
            else AdmissionDecision.allow
          | none => AdmissionDecision.allow
      else AdmissionDecision.allow

/-- The inputs `handleQuickUpload` reads before deciding admission. -/
structure QuickUploadEnv where
  userRole : Role
  isParquet : Bool
  fileSizeMb : ℚ
  keepPersistentQuick : Bool
  isAllowed : Bool
  hasUserEmail : Bool
  userStorageTier : StorageTier
  userFileCount : Nat
  limits : Limits
  storageStatus : Option StorageStatus

/-- The conservative final-size estimate of the quick upload: a Parquet
(columnar) file is inflated ×2, a DuckDB database file is taken at its
actual size. -/
def quickUploadEstimatedMb (e : QuickUploadEnv) : ℚ :=
  if e.isParquet then e.fileSizeMb * 2 else e.fileSizeMb

/-- The admission phase of `handleQuickUpload` (`src/pages/Home.tsx`,
lines 263–341): admin skips everything; on the persistent path the
file-count quota is checked, then the capacity quota against the inflated
estimate. -/
def quickUploadAdmission (e : QuickUploadEnv) : AdmissionDecision :=
  if e.userRole = Role.admin then AdmissionDecision.allow
  else if e.keepPersistentQuick = true ∧ e.isAllowed = true ∧ e.hasUserEmail = true ∧
      getEffectiveStorageTier e.isAllowed e.keepPersistentQuick e.userStorageTier
        ≠ StorageTier.temp then
    let validation := validateUpload e.userFileCount e.fileSizeMb e.limits
    if validation.allowed = false then
      AdmissionDecision.deny
        (DenyReason.fileCountLimit validation.userFileCount (jsOrNat validation.maxFiles 2))
    else
      match e.storageStatus with
      | some storageStatus =>
        let estimatedFileSizeMb := quickUploadEstimatedMb e
        if estimatedFileSizeMb > storageStatus.available_mb ∨
            storageStatus.can_upload = false then
          AdmissionDecision.deny
            (DenyReason.storageFull storageStatus.available_mb estimatedFileSizeMb)
        else AdmissionDecision.allow
      | none => AdmissionDecision.allow
  else AdmissionDecision.allow

/-- The inputs `handleParquetUploadToServer` reads before deciding
admission. -/
structure ParquetUploadEnv where
  userRole : Role
  fileSizeMb : ℚ
  keepPersistent : Bool
  isAllowed : Bool
  hasUserEmail : Bool
  userStorageTier : StorageTier
  userFileCount : Nat
  limits : Limits
  storageStatus : Option StorageStatus

/-- The admission phase of `handleParquetUploadToServer`
(`src/pages/Home.tsx`, lines 741–811): for a non-admin the 75 MB ceiling on
the Parquet buffer itself is checked before anything else; then admin skips
the rest; on the persistent path the file-count quota is checked, then the
capacity quota against the ×2-inflated estimate. -/
def parquetUploadAdmission (e : ParquetUploadEnv) : AdmissionDecision :=
  if e.userRole ≠ Role.admin ∧ e.fileSizeMb > 75 then
    AdmissionDecision.deny (DenyReason.artifactTooLarge 75 e.fileSizeMb)
  else if e.userRole = Role.admin then AdmissionDecision.allow
  else if e.keepPersistent = true ∧ e.isAllowed = true ∧ e.hasUserEmail = true ∧
      getEffectiveStorageTier e.isAllowed e.keepPersistent e.userStorageTier
        ≠ StorageTier.temp then
    let validation := validateUpload e.userFileCount e.fileSizeMb e.limits
    if validation.allowed = false then
      AdmissionDecision.deny
        (DenyReason.fileCountLimit validation.userFileCount (jsOrNat validation.maxFiles 2))
    else
      match e.storageStatus with
      | some storageStatus =>
        let estimatedFileSizeMb := e.fileSizeMb * 2
        if estimatedFileSizeMb > storageStatus.available_mb ∨
            storageStatus.can_upload = false then
          AdmissionDecision.deny
            (DenyReason.storageFull storageStatus.available_mb estimatedFileSizeMb)
        else AdmissionDecision.allow
      | none => AdmissionDecision.allow
  else AdmissionDecision.allow

/-- The staging-time size ceiling of `handleQuickDrop`
(`src/pages/Home.tsx`, lines 243–255): non-admin callers get a 75 MB
ceiling for a Parquet file and 150 MB otherwise; admin is exempt. -/
def quickDropSizeCheck (userRole : Role) (isParquet : Bool) (fileSizeMb : ℚ) :
    AdmissionDecision :=
  if userRole ≠ Role.admin then
    let maxSizeMb : ℚ := if isParquet then 75 else 150
    if fileSizeMb > maxSizeMb then
      AdmissionDecision.deny (DenyReason.artifactTooLarge maxSizeMb fileSizeMb)
    else AdmissionDecision.allow
  else AdmissionDecision.allow

/-! ## Token-authenticated transfer client (`src/lib/pushToRemote.ts`).
Each network interaction's outcome is an explicit input: `uploadWithToken`
is driven by how its `XMLHttpRequest` concluded, and the orchestrating
functions (`pushToRemote`, `uploadDirectFile`, `uploadParquetBuffer`)
normalize every thrown error into a `success: false` result, exactly as
their `try`/`catch` does. -/

/-- A parsed JSON response body; every field is optional because
`JSON.parse` imposes no shape.  `error` is the `error` field of an error
body. -/
structure JsonBody where
  download_url : Option String := none
  filename : Option String := none
  expires_in_hours : Option ℚ := none
  detail : Option String := none
  error : Option String := none
deriving DecidableEq

/-- How the transfer's `XMLHttpRequest` concluded: a response with a status
and a body (`none` = body that fails `JSON.parse`), a network error, or an
abort. -/
inductive XhrEvent
  | loaded (status : Nat) (body : Option JsonBody)
  | networkError
  | aborted
deriving DecidableEq

/-- JS truthiness of an optional string (`a || b` chains: absent and empty
strings are falsy). -/
def jsTruthy (x : Option String) : Option String :=
  match x with
  | some s => if s = "" then none else some s
  | none => none

/-- `uploadWithToken` (`src/lib/pushToRemote.ts`, lines 105–155): resolve
with the parsed body on a parseable 2xx response; otherwise reject with the
normalized message (`error.detail || error.error || HTTP <status>`,
"Invalid response from server", "Network error during upload",
"Upload cancelled"). -/
def uploadWithToken (ev : XhrEvent) : Except String JsonBody :=
  match ev with
  | XhrEvent.loaded status body =>
    if 200 ≤ status ∧ status < 300 then
      match body with
      | some parsed => Except.ok parsed
      | none => Except.error "Invalid response from server"
    else
      match body with
      | some parsed =>
        match jsTruthy parsed.detail with
        | some d => Except.error d
        | none =>
          match jsTruthy parsed.error with
          | some m => Except.error m
          | none => Except.error ("HTTP " ++ toString status)
      | none => Except.error ("Upload failed: HTTP " ++ toString status)
  | XhrEvent.networkError => Except.error "Network error during upload"
  | XhrEvent.aborted => Except.error "Upload cancelled"

/-- The `PushToRemoteResult` record of the source, field for field. -/
structure PushToRemoteResult where
  success : Bool
  downloadUrl : Option String := none
  filename : Option String := none
  sizeBytes : Option Nat := none
  expiresInHours : Option ℚ := none
  error : Option String := none
deriving DecidableEq

/-- The outcomes of the steps `pushToRemote` awaits: the ZIP export
(failure or the bundle's byte size), the token request, and the transfer. -/
structure PushEnv where
  exportResult : Except String Nat
  tokenResult : Except String Unit
  uploadEvent : XhrEvent

/-- `pushToRemote` (`src/lib/pushToRemote.ts`, lines 263–334): export, get
a token, transfer; any failure is caught and returned as
`{ success: false, error }`, a resolved transfer yields `success: true`
with the response body's fields and the export's byte size. -/
def pushToRemote (env : PushEnv) : PushToRemoteResult :=
  match env.exportResult with
  | Except.error msg => { success := false, error := some msg }
  | Except.ok sizeBytes =>
    match env.tokenResult with
    | Except.error msg => { success := false, error := some msg }
    | Except.ok _ =>
      match uploadWithToken env.uploadEvent with
      | Except.error msg => { success := false, error := some msg }
      | Except.ok result =>
        { success := true
          downloadUrl := result.download_url
          filename := result.filename
          sizeBytes := some sizeBytes
          expiresInHours := result.expires_in_hours }

/-- The inputs of `uploadDirectFile`: the file's name and size plus the
network step outcomes. -/
structure DirectUploadEnv where
  fileName : String
  fileSize : Nat
  tokenResult : Except String Unit
  uploadEvent : XhrEvent

/-- `uploadDirectFile` (`src/lib/pushToRemote.ts`, lines 341–413): reject
unsupported extensions (thrown, then caught into a failure result), then
token and transfer as in `pushToRemote`; on success `sizeBytes` is the
file's size. -/
def uploadDirectFile (env : DirectUploadEnv) : PushToRemoteResult :=
  let fileExt := fileExtension env.fileName
  let isParquet := fileExt = "parquet"
  let isDuckDB := fileExt = "duckdb" ∨ fileExt = "db"
  if ¬ (isParquet ∨ isDuckDB) then
    { success := false
      error := some "Only .parquet and .duckdb files are supported for direct upload" }
  else
    match env.tokenResult with
    | Except.error msg => { success := false, error := some msg }
    | Except.ok _ =>
      match uploadWithToken env.uploadEvent with
      | Except.error msg => { success := false, error := some msg }
      | Except.ok result =>
        { success := true
          downloadUrl := result.download_url
          filename := result.filename
          sizeBytes := some env.fileSize
          expiresInHours := result.expires_in_hours }

/-- The inputs of `uploadParquetBuffer`: the converted buffer's length and
the network step outcomes. -/
structure BufferUploadEnv where
  bufferLength : Nat
  tokenResult : Except String Unit
  uploadEvent : XhrEvent

/-- `uploadParquetBuffer` (`src/lib/pushToRemote.ts`, lines 419–487): token
and transfer; on success `sizeBytes` is the buffer's length. -/
def uploadParquetBuffer (env : BufferUploadEnv) : PushToRemoteResult :=
  match env.tokenResult with
  | Except.error msg => { success := false, error := some msg }
  | Except.ok _ =>
    match uploadWithToken env.uploadEvent with
    | Except.error msg => { success := false, error := some msg }
    | Except.ok result =>
      { success := true
        downloadUrl := result.download_url
        filename := result.filename
        sizeBytes := some env.bufferLength
        expiresInHours := result.expires_in_hours }

/-! ## The user-triggered entry points of `src/pages/Home.tsx` and their
role-loading guard.  Each drop/file-input handler first checks
`isRoleLoading` and rejects with the "Please wait, loading user
permissions..." error; the three publish actions do not perform that check
(their `isRoleLoading` parameter records exactly that). -/

/-- How a handler invocation ended: the role-loading rejection, some other
early return, or proceeding with the action. -/
inductive HandlerOutcome
  | rejectedRoleLoading
  | rejectedOther (message : String)
  | proceeded
deriving DecidableEq

/-- The delimited-file filter `/\.(csv|tsv|txt|pipe|psv)$/i`. -/
def hasDelimitedExt (name : String) : Bool :=
  strEndsWith (lowerStr name) ".csv" || strEndsWith (lowerStr name) ".tsv" ||
  strEndsWith (lowerStr name) ".txt" || strEndsWith (lowerStr name) ".pipe" ||
  strEndsWith (lowerStr name) ".psv"

/-- The quick-upload filter `/\.(parquet|duckdb|db)$/i`. -/
def hasQuickExt (name : String) : Bool :=
  strEndsWith (lowerStr name) ".parquet" || strEndsWith (lowerStr name) ".duckdb" ||
  strEndsWith (lowerStr name) ".db"

/-- `handleBuildDrop` (`src/pages/Home.tsx`, lines 153–185): guard on
`isRoleLoading`, then filter the dropped names and import them. -/
def handleBuildDrop (isRoleLoading : Bool) (droppedFiles : List String) : HandlerOutcome :=
  if isRoleLoading then HandlerOutcome.rejectedRoleLoading
  else
    let files := droppedFiles.filter hasDelimitedExt
    if files = [] then HandlerOutcome.rejectedOther "Please drop CSV, TSV, TXT, PIPE, or PSV files"
    else HandlerOutcome.proceeded

/-- `handleBuildFileInput` (`src/pages/Home.tsx`, lines 188–213): empty
selections return silently first, then the `isRoleLoading` guard. -/
def handleBuildFileInput (isRoleLoading : Bool) (selectedFiles : List String) : HandlerOutcome :=
  match selectedFiles with
  | [] => HandlerOutcome.rejectedOther "no files selected"
  | _ :: _ =>
    if isRoleLoading then HandlerOutcome.rejectedRoleLoading
    else HandlerOutcome.proceeded

/-- `handleQuickDrop` (`src/pages/Home.tsx`, lines 216–260): guard on
`isRoleLoading`, filter, single-file check, then the staging size ceiling.
A dropped file is (name, size in MB). -/
def handleQuickDrop (isRoleLoading : Bool) (userRole : Role)
    (droppedFiles : List (String × ℚ)) : HandlerOutcome :=
  if isRoleLoading then HandlerOutcome.rejectedRoleLoading
  else
    match droppedFiles.filter (fun f => hasQuickExt f.1) with
    | [] => HandlerOutcome.rejectedOther "Please drop a Parquet or DuckDB file"
    | [f] =>
      match quickDropSizeCheck userRole (strEndsWith (lowerStr f.1) ".parquet") f.2 with
      | AdmissionDecision.deny _ => HandlerOutcome.rejectedOther "file too large"
      | AdmissionDecision.allow => HandlerOutcome.proceeded
    | _ => HandlerOutcome.rejectedOther "Quick Upload supports one file at a time"

/-- `handleQuickFileInput` (`src/pages/Home.tsx`, lines 383–411): empty
selection first, then the `isRoleLoading` guard, then the generic 150 MB
ceiling for non-admins. -/
def handleQuickFileInput (isRoleLoading : Bool) (userRole : Role)
    (selectedFiles : List (String × ℚ)) : HandlerOutcome :=
  match selectedFiles with
  | [] => HandlerOutcome.rejectedOther "no files selected"
  | f :: _ =>
    if isRoleLoading then HandlerOutcome.rejectedRoleLoading
    else if userRole ≠ Role.admin ∧ f.2 > 150 then
      HandlerOutcome.rejectedOther "File too large"
    else HandlerOutcome.proceeded

/-- `handleParquetDrop` (`src/pages/Home.tsx`, lines 634–683): guard on
`isRoleLoading`, filter, single-file check, then convert. -/
def handleParquetDrop (isRoleLoading : Bool) (droppedFiles : List String) : HandlerOutcome :=
  if isRoleLoading then HandlerOutcome.rejectedRoleLoading
  else
    match droppedFiles.filter hasDelimitedExt with
    | [] => HandlerOutcome.rejectedOther "Please drop a CSV, TSV, or delimited file"
    | [_] => HandlerOutcome.proceeded
    | _ => HandlerOutcome.rejectedOther "CSV to Parquet supports one file at a time"

/-- `handleParquetFileInput` (`src/pages/Home.tsx`, lines 686–723): empty
selection first, then the `isRoleLoading` guard. -/
def handleParquetFileInput (isRoleLoading : Bool) (selectedFiles : List String) : HandlerOutcome :=
  match selectedFiles with
  | [] => HandlerOutcome.rejectedOther "no files selected"
  | _ :: _ =>
    if isRoleLoading then HandlerOutcome.rejectedRoleLoading
    else HandlerOutcome.proceeded

/-- The publish action of the quick-upload workflow (`handleQuickUpload`,
`src/pages/Home.tsx`, lines 263–380).  The source performs no
`isRoleLoading` check here; the parameter records that the outcome does not
depend on it. -/
def handleQuickUpload (isRoleLoading : Bool) (stagedFile : Option (String × ℚ))
    (e : QuickUploadEnv) : HandlerOutcome :=
  match stagedFile with
  | none => HandlerOutcome.rejectedOther "no staged file"
  | some _ =>
    match quickUploadAdmission e with
    | AdmissionDecision.deny _ => HandlerOutcome.rejectedOther "admission denied"
    | AdmissionDecision.allow => HandlerOutcome.proceeded

/-- The publish action of the build-database workflow (`handlePushToRemote`,
`src/pages/Home.tsx`, lines 452–569).  No `isRoleLoading` check in the
source. -/
def handlePushAction (isRoleLoading : Bool) (e : BuildDbEnv) : HandlerOutcome :=
  match buildDbAdmission e with
  | AdmissionDecision.deny _ => HandlerOutcome.rejectedOther "admission denied"
  | AdmissionDecision.allow => HandlerOutcome.proceeded

/-- The publish action of the convert-then-publish workflow
(`handleParquetUploadToServer`, `src/pages/Home.tsx`, lines 741–850).  No
`isRoleLoading` check in the source. -/
def handleParquetUploadAction (isRoleLoading : Bool)
    (conversionResult : Option (String × ℚ)) (e : ParquetUploadEnv) : HandlerOutcome :=
  match conversionResult with
  | none => HandlerOutcome.rejectedOther "no converted buffer"
  | some _ =>
    match parquetUploadAdmission e with
    | AdmissionDecision.deny _ => HandlerOutcome.rejectedOther "admission denied"
    | AdmissionDecision.allow => HandlerOutcome.proceeded

/-! ## Theorems -/

/-- Claim C2, as stated, is false at a concrete input: on a first line with
one pipe, no tab and one comma — a tie for the highest count — the source's
`detectDelimiter` answers pipe, while the stated rule ("comma as the
default tie-break") answers comma. -/
theorem C2_counterexample :
    detectDelimiter "a|b,c" = '|' ∧ specCommaTieBreakDelimiter "a|b,c" = ',' ∧
      detectDelimiter "a|b,c" ≠ specCommaTieBreakDelimiter "a|b,c" := by
  decide

/-- Claim C2 (amended): extensions `pipe`/`psv` force pipe and `tsv` forces
tab; every other extension is inferred from the sample's first line by
counting pipes, tabs and commas and selecting a candidate with the highest
count — ties broken in favor of pipe, then tab, with comma as the fallback.
In particular 3 pipes / 1 tab / 0 commas yields pipe and 0 of all three
yields comma. -/
theorem C2_delimiter_selection (filename sample : String) :
    ((fileExtension filename = "pipe" ∨ fileExtension filename = "psv") →
      chooseDelimiter filename sample = '|')
  ∧ (fileExtension filename = "tsv" → chooseDelimiter filename sample = '\t')
  ∧ (fileExtension filename ≠ "pipe" → fileExtension filename ≠ "psv" →
      fileExtension filename ≠ "tsv" →
      chooseDelimiter filename sample = detectDelimiter sample)
  ∧ countChar (firstLine sample) (detectDelimiter sample)
      = max (max (countChar (firstLine sample) '|') (countChar (firstLine sample) '\t'))
          (countChar (firstLine sample) ',')
  ∧ (countChar (firstLine sample) '|' > 0 →
      countChar (firstLine sample) '|' ≥ countChar (firstLine sample) '\t' →
      countChar (firstLine sample) '|' ≥ countChar (firstLine sample) ',' →
      detectDelimiter sample = '|')
  ∧ (countChar (firstLine sample) '|' = 0 → countChar (firstLine sample) '\t' = 0 →
      countChar (firstLine sample) ',' = 0 → detectDelimiter sample = ',')
  ∧ (¬ (countChar (firstLine sample) '|' > 0 ∧
        countChar (firstLine sample) '|' ≥ countChar (firstLine sample) '\t' ∧
        countChar (firstLine sample) '|' ≥ countChar (firstLine sample) ',') →
      countChar (firstLine sample) '\t' > 0 →
      countChar (firstLine sample) '\t' ≥ countChar (firstLine sample) ',' →
      detectDelimiter sample = '\t')
  ∧ (¬ (countChar (firstLine sample) '|' > 0 ∧
        countChar (firstLine sample) '|' ≥ countChar (firstLine sample) '\t' ∧
        countChar (firstLine sample) '|' ≥ countChar (firstLine sample) ',') →
      ¬ (countChar (firstLine sample) '\t' > 0 ∧
        countChar (firstLine sample) '\t' ≥ countChar (firstLine sample) ',') →
      detectDelimiter sample = ',') := by
  refine ⟨?_, ?_, ?_, ?_, ?_, ?_, ?_, ?_⟩
  · intro h
    simp only [chooseDelimiter]
    rw [if_pos h]
  · intro h
    simp only [chooseDelimiter]
    rw [if_neg (by rw [h]; decide), if_pos h]
  · intro h1 h2 h3
    simp only [chooseDelimiter]
    rw [if_neg (by rintro (h | h); exacts [h1 h, h2 h]), if_neg h3]
    split <;> rfl
  · simp only [detectDelimiter]
    split_ifs with h1 h2 <;> omega
  · intro h1 h2 h3
    simp only [detectDelimiter]
    rw [if_pos ⟨h1, h2, h3⟩]
  · intro h1 h2 h3
    simp only [detectDelimiter]
    rw [if_neg (by omega), if_neg (by omega)]
  · intro h1 h2 h3
    simp only [detectDelimiter]
    rw [if_neg h1, if_pos ⟨h2, h3⟩]
  · intro h1 h2
    simp only [detectDelimiter]
    rw [if_neg h1, if_neg h2]

/-- Witness for C2: a `.psv` filename forces pipe; the sample with 3 pipes,
1 tab and 0 commas infers pipe; a tab/comma tie (0 pipes, 1 tab, 1 comma)
infers tab; and more commas than tabs infers comma. -/
theorem C2_delimiter_selection_witness :
    chooseDelimiter "report.psv" "x" = '|' ∧ detectDelimiter "a|b|c|d\te" = '|'
  ∧ detectDelimiter "a\tb,c" = '\t' ∧ detectDelimiter "a,b,c\td" = ',' := by
  refine ⟨(C2_delimiter_selection "report.psv" "x").1 (Or.inr (by decide)), ?_, ?_, ?_⟩
  · exact (C2_delimiter_selection "f.csv" "a|b|c|d\te").2.2.2.2.1
      (by decide) (by decide) (by decide)
  · exact (C2_delimiter_selection "f.csv" "a\tb,c").2.2.2.2.2.2.1
      (by decide) (by decide) (by decide)
  · exact (C2_delimiter_selection "f.csv" "a,b,c\td").2.2.2.2.2.2.2
      (by decide) (by decide)

/-- Claim C1: for a non-admin caller, whatever tier is requested, an
estimate over the per-type ceiling (75 MB for the ×2-inflated database
estimate in the build workflow, 75 MB for the Parquet buffer in the
convert-then-publish workflow) is denied as too large with the limit and
the actual size — for every value of the file count, the limits and the
capacity report, i.e. before and regardless of the quota checks. -/
theorem C1_size_ceiling_first (e : BuildDbEnv) (p : ParquetUploadEnv)
    (he : e.userRole ≠ Role.admin) (hsize : e.parquetSizeMb * 2 > 75)
    (hp : p.userRole ≠ Role.admin) (hpsize : p.fileSizeMb > 75) :
    buildDbAdmission e
      = AdmissionDecision.deny (DenyReason.artifactTooLarge 75 (e.parquetSizeMb * 2))
  ∧ parquetUploadAdmission p
      = AdmissionDecision.deny (DenyReason.artifactTooLarge 75 p.fileSizeMb) := by
  constructor
  · simp only [buildDbAdmission]
    rw [if_neg he, if_pos hsize]
  · simp only [parquetUploadAdmission]
    rw [if_pos ⟨hp, hpsize⟩]

/-- Witness for C1: a 40 MB columnar estimate (80 MB inflated) and an 80 MB
Parquet buffer are both denied for size, with empty quota context. -/
theorem C1_size_ceiling_first_witness :
    buildDbAdmission
        ⟨Role.pro, false, false, false, StorageTier.temp, 40, 0, ⟨none, none⟩, none⟩
      = AdmissionDecision.deny (DenyReason.artifactTooLarge 75 ((40 : ℚ) * 2))
  ∧ parquetUploadAdmission
        ⟨Role.pro, 80, false, false, false, StorageTier.temp, 0, ⟨none, none⟩, none⟩
      = AdmissionDecision.deny (DenyReason.artifactTooLarge 75 80) :=
  C1_size_ceiling_first _ _ (by decide) (by norm_num) (by decide) (by norm_num)

/-- Claim C3: an admin identity is allowed by every admission decision —
the build-database push, the quick upload, the convert-then-publish upload
and the quick-drop staging ceiling — regardless of sizes, counts, limits
and the capacity report, all of which stay completely unexamined. -/
theorem C3_admin_bypass (e : BuildDbEnv) (q : QuickUploadEnv) (p : ParquetUploadEnv)
    (isParquet : Bool) (fileSizeMb : ℚ)
    (he : e.userRole = Role.admin) (hq : q.userRole = Role.admin)
    (hp : p.userRole = Role.admin) :
    buildDbAdmission e = AdmissionDecision.allow
  ∧ quickUploadAdmission q = AdmissionDecision.allow
  ∧ parquetUploadAdmission p = AdmissionDecision.allow
  ∧ quickDropSizeCheck Role.admin isParquet fileSizeMb = AdmissionDecision.allow := by
  refine ⟨?_, ?_, ?_, ?_⟩
  · simp only [buildDbAdmission]
    rw [if_pos he]
  · simp only [quickUploadAdmission]
    rw [if_pos hq]
  · simp only [parquetUploadAdmission]
    rw [if_neg (by rintro ⟨h, -⟩; exact h hp), if_pos hp]
  · simp only [quickDropSizeCheck]
    rw [if_neg (by simp)]

/-- Witness for C3: an admin with a 1000 MB artifact, a file count above
its maximum and a full, closed storage report is still allowed everywhere. -/
theorem C3_admin_bypass_witness :
    buildDbAdmission
        ⟨Role.admin, true, true, true, StorageTier.permanent, 1000, 5,
          ⟨some 2, some 1⟩, some ⟨0, false⟩⟩
      = AdmissionDecision.allow
  ∧ quickUploadAdmission
        ⟨Role.admin, true, 1000, true, true, true, StorageTier.permanent, 5,
          ⟨some 2, some 1⟩, some ⟨0, false⟩⟩
      = AdmissionDecision.allow
  ∧ parquetUploadAdmission
        ⟨Role.admin, 1000, true, true, true, StorageTier.permanent, 5,
          ⟨some 2, some 1⟩, some ⟨0, false⟩⟩
      = AdmissionDecision.allow
  ∧ quickDropSizeCheck Role.admin true 1000 = AdmissionDecision.allow :=
  C3_admin_bypass _ _ _ true 1000 rfl rfl rfl

/-- Claim C4: on the persistent path of a non-admin caller, once the
earlier checks pass, the capacity rule denies with `STORAGE_FULL` carrying
the reported available megabytes and the conservative estimate (×2 for a
columnar file, actual size for a database file; ×2 of the converted buffer
in the convert-then-publish workflow) whenever the estimate exceeds the
available capacity or the service reports it cannot accept uploads. -/
theorem C4_capacity_rule (q : QuickUploadEnv) (p : ParquetUploadEnv)
    (sq sp : StorageStatus)
    (hq1 : q.userRole ≠ Role.admin)
    (hq2 : q.keepPersistentQuick = true) (hq3 : q.isAllowed = true)
    (hq4 : q.hasUserEmail = true)
    (hq5 : getEffectiveStorageTier q.isAllowed q.keepPersistentQuick q.userStorageTier
      ≠ StorageTier.temp)
    (hq6 : (validateUpload q.userFileCount q.fileSizeMb q.limits).allowed = true)
    (hq7 : q.storageStatus = some sq)
    (hq8 : quickUploadEstimatedMb q > sq.available_mb ∨ sq.can_upload = false)
    (hp0 : ¬ p.fileSizeMb > 75)
    (hp1 : p.userRole ≠ Role.admin)
    (hp2 : p.keepPersistent = true) (hp3 : p.isAllowed = true) (hp4 : p.hasUserEmail = true)
    (hp5 : getEffectiveStorageTier p.isAllowed p.keepPersistent p.userStorageTier
      ≠ StorageTier.temp)
    (hp6 : (validateUpload p.userFileCount p.fileSizeMb p.limits).allowed = true)
    (hp7 : p.storageStatus = some sp)
    (hp8 : p.fileSizeMb * 2 > sp.available_mb ∨ sp.can_upload = false) :
    quickUploadAdmission q
      = AdmissionDecision.deny (DenyReason.storageFull sq.available_mb (quickUploadEstimatedMb q))
  ∧ parquetUploadAdmission p
      = AdmissionDecision.deny (DenyReason.storageFull sp.available_mb (p.fileSizeMb * 2)) := by
  constructor
  · simp only [quickUploadAdmission]
    rw [if_neg hq1, if_pos ⟨hq2, hq3, hq4, hq5⟩, if_neg (by rw [hq6]; decide), hq7]
    exact if_pos hq8
  · simp only [parquetUploadAdmission]
    rw [if_neg (by rintro ⟨-, h⟩; exact hp0 h), if_neg hp1,
      if_pos ⟨hp2, hp3, hp4, hp5⟩, if_neg (by rw [hp6]; decide), hp7]
    exact if_pos hp8

/-- Witness for C4: a pro caller on the persistent path with no per-user
limits and a service that reports it cannot accept uploads is denied
`STORAGE_FULL` in both workflows. -/
theorem C4_capacity_rule_witness :
    quickUploadAdmission
        ⟨Role.pro, true, 1, true, true, true, StorageTier.persistent, 0,
          ⟨none, none⟩, some ⟨0, false⟩⟩
      = AdmissionDecision.deny (DenyReason.storageFull 0 (quickUploadEstimatedMb
          ⟨Role.pro, true, 1, true, true, true, StorageTier.persistent, 0,
            ⟨none, none⟩, some ⟨0, false⟩⟩))
  ∧ parquetUploadAdmission
        ⟨Role.pro, 1, true, true, true, StorageTier.persistent, 0,
          ⟨none, none⟩, some ⟨0, false⟩⟩
      = AdmissionDecision.deny (DenyReason.storageFull 0 ((1 : ℚ) * 2)) :=
  C4_capacity_rule _ _ ⟨0, false⟩ ⟨0, false⟩
    (by decide) rfl rfl rfl (by decide) rfl rfl (Or.inr rfl)
    (by norm_num) (by decide) rfl rfl rfl (by decide) rfl rfl (Or.inr rfl)

/-- Helper: the size rule of `validateUpload` can only produce a size
denial, never a file-count one. -/
theorem validateFileSize_reason (userFileCount : Nat) (fileSizeMb : ℚ) (lim : Limits) :
    (validateFileSize userFileCount fileSizeMb lim).reason = none ∨
    ∃ ms, (validateFileSize userFileCount fileSizeMb lim).reason
      = some (ValidationReason.fileSizeLimit fileSizeMb ms) := by
  cases hms : lim.max_file_size_mb with
  | none => exact Or.inl (by simp only [validateFileSize, hms])
  | some ms =>
    by_cases hgt : fileSizeMb > ms
    · refine Or.inr ⟨ms, ?_⟩
      simp only [validateFileSize, hms]
      rw [if_pos hgt]
    · refine Or.inl ?_
      simp only [validateFileSize, hms]
      rw [if_neg hgt]

/-- Claim C5: with a finite maximum and a current non-deleted record count
at or above it, `validateUpload` denies with the file-count reason and the
detail (current count, maximum); with no maximum, or a count below it, the
file-count check passes (no file-count denial is ever produced).  On the
persistent path of the build workflow the handler surfaces that denial as
the file-limit modal with the same detail. -/
theorem C5_file_count_quota (userFileCount : Nat) (fileSizeMb : ℚ) (limits : Limits)
    (e : BuildDbEnv) :
    (∀ m, limits.max_files = some m → userFileCount ≥ m →
      validateUpload userFileCount fileSizeMb limits
        = ⟨false, some (ValidationReason.fileCountLimit userFileCount m),
            userFileCount, some m⟩)
  ∧ ((limits.max_files = none ∨ ∃ m, limits.max_files = some m ∧ userFileCount < m) →
      ∀ c mx, (validateUpload userFileCount fileSizeMb limits).reason
        ≠ some (ValidationReason.fileCountLimit c mx))
  ∧ (e.userRole ≠ Role.admin → ¬ e.parquetSizeMb * 2 > 75 →
      e.keepPersistent = true → e.isAllowed = true → e.hasUserEmail = true →
      getEffectiveStorageTier e.isAllowed e.keepPersistent e.userStorageTier
        ≠ StorageTier.temp →
      ∀ m, e.limits.max_files = some m → m ≠ 0 → e.userFileCount ≥ m →
      buildDbAdmission e
        = AdmissionDecision.deny (DenyReason.fileCountLimit e.userFileCount m)) := by
  refine ⟨?_, ?_, ?_⟩
  · intro m hm hcount
    simp only [validateUpload, hm]
    rw [if_pos hcount]
  · intro h c mx
    have hred : validateUpload userFileCount fileSizeMb limits
        = validateFileSize userFileCount fileSizeMb limits := by
      rcases h with hnone | ⟨m, hm, hlt⟩
      · simp only [validateUpload, hnone]
      · simp only [validateUpload, hm]
        rw [if_neg (by omega)]
    rw [hred]
    rcases validateFileSize_reason userFileCount fileSizeMb limits with hr | ⟨ms, hr⟩ <;>
      rw [hr]
    · simp
    · intro hcontra
      simp only [Option.some_inj] at hcontra
      cases hcontra
  · intro h1 h2 h3 h4 h5 h6 m hm hm0 hcount
    simp only [buildDbAdmission]
    rw [if_neg h1, if_neg h2, if_pos ⟨h3, h4, h5, h6⟩]
    have hval : validateUpload e.userFileCount 0 e.limits
        = ⟨false, some (ValidationReason.fileCountLimit e.userFileCount m),
            e.userFileCount, some m⟩ := by
      simp only [validateUpload, hm]
      rw [if_pos hcount]
    rw [hval]
    simp only [jsOrNat]
    rw [if_pos trivial, if_neg hm0]

/-- Witness for C5 (end-to-end scenario B): an identity at 2 of 2 files is
denied with detail (2, 2), both by `validateUpload` and by the build
workflow's admission; an identity with no maximum never hits a file-count
denial. -/
theorem C5_file_count_quota_witness :
    validateUpload 2 0 ⟨some 2, none⟩
      = ⟨false, some (ValidationReason.fileCountLimit 2 2), 2, some 2⟩
  ∧ (∀ c mx, (validateUpload 2 0 (⟨none, none⟩ : Limits)).reason
      ≠ some (ValidationReason.fileCountLimit c mx))
  ∧ buildDbAdmission
      ⟨Role.pro, true, true, true, StorageTier.persistent, 10, 2,
        ⟨some 2, none⟩, none⟩
      = AdmissionDecision.deny (DenyReason.fileCountLimit 2 2) := by
  refine ⟨?_, ?_, ?_⟩
  · exact (C5_file_count_quota 2 0 ⟨some 2, none⟩
      ⟨Role.pro, true, true, true, StorageTier.persistent, 10, 2,
        ⟨some 2, none⟩, none⟩).1 2 rfl (by decide)
  · exact (C5_file_count_quota 2 0 ⟨none, none⟩
      ⟨Role.pro, true, true, true, StorageTier.persistent, 10, 2,
        ⟨some 2, none⟩, none⟩).2.1 (Or.inl rfl)
  · exact (C5_file_count_quota 2 0 ⟨some 2, none⟩
      ⟨Role.pro, true, true, true, StorageTier.persistent, 10, 2,
        ⟨some 2, none⟩, none⟩).2.2 (by decide) (by norm_num) rfl rfl rfl
      (by decide) 2 rfl (by decide) (by decide)

/-- Claim C6: the `manifest.json` and `schema.sql` members are pure
functions of the table metadata — two export runs over the same tables in
the same order produce byte-identical texts — and the DDL statement order
matches the manifest order: for every index, the i-th statement creates the
table the i-th manifest entry names. -/
theorem C6_manifest_ddl_deterministic (run1 run2 : List TableInfo) (h : run1 = run2) :
    manifestJson run1 = manifestJson run2
  ∧ schemaSql run1 = schemaSql run2
  ∧ (schemaStatements run1).length = (manifestEntries run1).length
  ∧ ∀ i (hm : i < (manifestEntries run1).length) (hs : i < (schemaStatements run1).length),
      ∃ tail, (schemaStatements run1).get ⟨i, hs⟩
        = "CREATE TABLE \"" ++ ((manifestEntries run1).get ⟨i, hm⟩).name ++ "\"" ++ tail := by
  refine ⟨by rw [h], by rw [h], ?_, ?_⟩
  · simp [schemaStatements, manifestEntries]
  · intro i hm hs
    have hr : i < run1.length := by simpa [schemaStatements] using hs
    refine ⟨" (\n  " ++ ddlColumns ((run1.get ⟨i, hr⟩).columns) ++ "\n);", ?_⟩
    simp only [schemaStatements, manifestEntries, List.get_map, ddlStatement,
      String.append_assoc]

/-- Witness for C6: two runs over the same concrete two-table list. -/
theorem C6_manifest_ddl_deterministic_witness :
    manifestJson [⟨"t1", 3, [⟨"id", "BIGINT"⟩, ⟨"name", "VARCHAR"⟩]⟩, ⟨"t2", 1, [⟨"x", "DOUBLE"⟩]⟩]
      = manifestJson [⟨"t1", 3, [⟨"id", "BIGINT"⟩, ⟨"name", "VARCHAR"⟩]⟩, ⟨"t2", 1, [⟨"x", "DOUBLE"⟩]⟩]
  ∧ schemaSql [⟨"t1", 3, [⟨"id", "BIGINT"⟩, ⟨"name", "VARCHAR"⟩]⟩, ⟨"t2", 1, [⟨"x", "DOUBLE"⟩]⟩]
      = schemaSql [⟨"t1", 3, [⟨"id", "BIGINT"⟩, ⟨"name", "VARCHAR"⟩]⟩, ⟨"t2", 1, [⟨"x", "DOUBLE"⟩]⟩]
  ∧ (schemaStatements [⟨"t1", 3, [⟨"id", "BIGINT"⟩, ⟨"name", "VARCHAR"⟩]⟩, ⟨"t2", 1, [⟨"x", "DOUBLE"⟩]⟩]).length
      = (manifestEntries [⟨"t1", 3, [⟨"id", "BIGINT"⟩, ⟨"name", "VARCHAR"⟩]⟩, ⟨"t2", 1, [⟨"x", "DOUBLE"⟩]⟩]).length
  ∧ ∀ i (hm : i < (manifestEntries [⟨"t1", 3, [⟨"id", "BIGINT"⟩, ⟨"name", "VARCHAR"⟩]⟩, ⟨"t2", 1, [⟨"x", "DOUBLE"⟩]⟩]).length)
      (hs : i < (schemaStatements [⟨"t1", 3, [⟨"id", "BIGINT"⟩, ⟨"name", "VARCHAR"⟩]⟩, ⟨"t2", 1, [⟨"x", "DOUBLE"⟩]⟩]).length),
      ∃ tail, (schemaStatements [⟨"t1", 3, [⟨"id", "BIGINT"⟩, ⟨"name", "VARCHAR"⟩]⟩, ⟨"t2", 1, [⟨"x", "DOUBLE"⟩]⟩]).get ⟨i, hs⟩
        = "CREATE TABLE \"" ++ ((manifestEntries [⟨"t1", 3, [⟨"id", "BIGINT"⟩, ⟨"name", "VARCHAR"⟩]⟩, ⟨"t2", 1, [⟨"x", "DOUBLE"⟩]⟩]).get ⟨i, hm⟩).name ++ "\"" ++ tail :=
  C6_manifest_ddl_deterministic _ _ rfl

/-- Helper: looking up the key just written into an association list. -/
theorem getAssoc_setAssoc {α : Type} (l : List (String × α)) (k : String) (v : α) :
    getAssoc (setAssoc l k v) k = some v := by
  induction l with
  | nil => simp [setAssoc, getAssoc]
  | cons hd tl ih =>
    obtain ⟨k', v'⟩ := hd
    by_cases hk : k' = k
    · simp [setAssoc, getAssoc, hk]
    · simp [setAssoc, getAssoc, hk, ih]

/-- Helper: writing the same key twice keeps only the second write. -/
theorem setAssoc_setAssoc {α : Type} (l : List (String × α)) (k : String) (v w : α) :
    setAssoc (setAssoc l k v) k w = setAssoc l k w := by
  induction l with
  | nil => simp [setAssoc]
  | cons hd tl ih =>
    obtain ⟨k', v'⟩ := hd
    by_cases hk : k' = k
    · simp [setAssoc, hk]
    · simp [setAssoc, hk, ih]

/-- Claim C7: ingesting a file under a table name installs exactly the
parsed content of that file, independently of whatever table previously
held the name (full replacement — no append, no column union), and
re-ingesting the same file under the same name a second time changes
nothing: the row count and column set are the same after both
ingestions. -/
theorem C7_replace_semantics (st : TableStore) (filename content tableName : String) :
    getAssoc (importCSV st filename content tableName) tableName
      = some (readCsv content (chooseDelimiter filename (sampleText content)))
  ∧ importCSV (importCSV st filename content tableName) filename content tableName
      = importCSV st filename content tableName
  ∧ getAssoc (importCSV (importCSV st filename content tableName)
        filename content tableName) tableName
      = getAssoc (importCSV st filename content tableName) tableName := by
  have h2 : importCSV (importCSV st filename content tableName) filename content tableName
      = importCSV st filename content tableName := by
    simp only [importCSV, createOrReplaceTable]
    exact setAssoc_setAssoc _ _ _ _
  refine ⟨?_, h2, by rw [h2]⟩
  simp only [importCSV, createOrReplaceTable]
  exact getAssoc_setAssoc _ _ _

/-- Helper: the total the estimator computes depends only on the tables,
not on the virtual files already present. -/
theorem estimateLoop_fst (parquetBytes : TableData → Nat) (ts : TableStore)
    (vf vf' : List (String × Nat)) :
    (estimateLoop parquetBytes ts vf).1 = (estimateLoop parquetBytes ts vf').1 := by
  induction ts generalizing vf vf' with
  | nil => rfl
  | cons hd tl ih =>
    obtain ⟨n, t⟩ := hd
    simp only [estimateLoop]
    rw [ih]

/-- Claim C8: the size estimator leaves the table store untouched, a second
call on the resulting state returns the same byte count, and the empty
table set yields zero (with the state unchanged entirely).  The estimator
returns only the summed length; the exported buffers are not part of the
result. -/
theorem C8_estimator_frame (parquetBytes : TableData → Nat) (st : EngineState) :
    ((estimateDatabaseSize parquetBytes st).2).tables = st.tables
  ∧ (estimateDatabaseSize parquetBytes ((estimateDatabaseSize parquetBytes st).2)).1
      = (estimateDatabaseSize parquetBytes st).1
  ∧ (st.tables = [] → estimateDatabaseSize parquetBytes st = (0, st)) := by
  have htab : ((estimateDatabaseSize parquetBytes st).2).tables = st.tables := by
    unfold estimateDatabaseSize
    split_ifs <;> rfl
  refine ⟨htab, ?_, fun h => by simp [estimateDatabaseSize, h]⟩
  by_cases h : st.tables = []
  · simp [estimateDatabaseSize, h]
  · have hA : estimateDatabaseSize parquetBytes st
        = ((estimateLoop parquetBytes st.tables st.vfiles).1,
            ⟨st.tables, (estimateLoop parquetBytes st.tables st.vfiles).2⟩) := by
      simp [estimateDatabaseSize, h]
    rw [hA]
    simp [estimateDatabaseSize, h]
    exact estimateLoop_fst _ _ _ _

/-- Witness for C8: the empty session — both calls return zero and the
state is unchanged. -/
theorem C8_estimator_frame_witness :
    ((estimateDatabaseSize (fun t => t.rowCount) ⟨[], []⟩).2).tables = ([] : TableStore)
  ∧ (estimateDatabaseSize (fun t => t.rowCount)
        ((estimateDatabaseSize (fun t => t.rowCount) ⟨[], []⟩).2)).1
      = (estimateDatabaseSize (fun t => t.rowCount) ⟨[], []⟩).1
  ∧ estimateDatabaseSize (fun t => t.rowCount) ⟨[], []⟩ = (0, ⟨[], []⟩) := by
  obtain ⟨h1, h2, h3⟩ := C8_estimator_frame (fun t => t.rowCount) ⟨[], []⟩
  exact ⟨h1, h2, h3 rfl⟩

/-- Claim C9, as stated, is false at a concrete input: the quick-upload
publish action — a user-triggered action of one of the three workflows —
proceeds while the role information is still loading
(`isRoleLoading = true`), because `handleQuickUpload` performs no
role-loading check on its own. -/
theorem C9_counterexample :
    handleQuickUpload true (some ("data.parquet", 1))
        ⟨Role.admin, true, 1, false, false, false, StorageTier.temp, 0, ⟨none, none⟩, none⟩
      = HandlerOutcome.proceeded := by
  rfl

/-- Claim C9 (amended): every drop and file-selection entry point of the
three workflows rejects with the role-loading error while the identity's
role information has not finished loading; the three publish actions
perform no such check — their outcome is independent of the loading
flag. -/
theorem C9_role_loading_guard (userRole : Role) (names : List String)
    (qfiles : List (String × ℚ)) :
    handleBuildDrop true names = HandlerOutcome.rejectedRoleLoading
  ∧ (names ≠ [] → handleBuildFileInput true names = HandlerOutcome.rejectedRoleLoading)
  ∧ handleQuickDrop true userRole qfiles = HandlerOutcome.rejectedRoleLoading
  ∧ (qfiles ≠ [] →
      handleQuickFileInput true userRole qfiles = HandlerOutcome.rejectedRoleLoading)
  ∧ handleParquetDrop true names = HandlerOutcome.rejectedRoleLoading
  ∧ (names ≠ [] → handleParquetFileInput true names = HandlerOutcome.rejectedRoleLoading)
  ∧ (∀ (isRoleLoading : Bool) (staged : Option (String × ℚ)) (e : QuickUploadEnv),
      handleQuickUpload isRoleLoading staged e = handleQuickUpload false staged e)
  ∧ (∀ (isRoleLoading : Bool) (e : BuildDbEnv),
      handlePushAction isRoleLoading e = handlePushAction false e)
  ∧ (∀ (isRoleLoading : Bool) (cr : Option (String × ℚ)) (e : ParquetUploadEnv),
      handleParquetUploadAction isRoleLoading cr e
        = handleParquetUploadAction false cr e) := by
  refine ⟨rfl, ?_, rfl, ?_, rfl, ?_, fun _ _ _ => rfl, fun _ _ => rfl, fun _ _ _ => rfl⟩
  · intro h
    cases names with
    | nil => exact absurd rfl h
    | cons hd tl => rfl
  · intro h
    cases qfiles with
    | nil => exact absurd rfl h
    | cons hd tl => rfl
  · intro h
    cases names with
    | nil => exact absurd rfl h
    | cons hd tl => rfl

/-- Witness for C9 (amended): concrete nonempty selections are rejected
with the role-loading error in all six entry points. -/
theorem C9_role_loading_guard_witness :
    handleBuildDrop true ["a.csv"] = HandlerOutcome.rejectedRoleLoading
  ∧ handleBuildFileInput true ["a.csv"] = HandlerOutcome.rejectedRoleLoading
  ∧ handleQuickDrop true Role.pro [("a.parquet", 1)] = HandlerOutcome.rejectedRoleLoading
  ∧ handleQuickFileInput true Role.pro [("a.parquet", 1)] = HandlerOutcome.rejectedRoleLoading
  ∧ handleParquetDrop true ["a.csv"] = HandlerOutcome.rejectedRoleLoading
  ∧ handleParquetFileInput true ["a.csv"] = HandlerOutcome.rejectedRoleLoading := by
  obtain ⟨h1, h2, h3, h4, h5, h6, -, -, -⟩ :=
    C9_role_loading_guard Role.pro ["a.csv"] [("a.parquet", 1)]
  exact ⟨h1, h2 (by decide), h3, h4 (by decide), h5, h6 (by decide)⟩

/-- Claim C10, as stated, is false at a concrete input: a transfer that
concludes with a 2xx status and a parseable JSON body containing none of
the expected fields yields `success := true` with no `downloadUrl` — the
success fields are not guaranteed present. -/
theorem C10_counterexample :
    (pushToRemote ⟨Except.ok 1024, Except.ok (),
        XhrEvent.loaded 200 (some ⟨none, none, none, none, none⟩)⟩).success = true
  ∧ (pushToRemote ⟨Except.ok 1024, Except.ok (),
        XhrEvent.loaded 200 (some ⟨none, none, none, none, none⟩)⟩).downloadUrl = none := by
  exact ⟨rfl, rfl⟩

/-- Claim C10 (amended): each of the three upload functions always resolves
to a result — on any failure (unsupported extension, export failure, token
failure, network error, non-2xx status, unparseable body, cancellation)
`success` is `false` and an error string is present; on success `success`
is `true`, `sizeBytes` is set (the export size, the file size, the buffer
length respectively) and `downloadUrl`, `filename`, `expiresInHours` are
copied from the upload response body, present exactly when the body
supplies them. -/
theorem C10_resolve_shape (envP : PushEnv) (envD : DirectUploadEnv) (envB : BufferUploadEnv) :
    (((pushToRemote envP).success = false ∧ ∃ m, (pushToRemote envP).error = some m) ∨
      ((pushToRemote envP).success = true ∧
        (∃ n, envP.exportResult = Except.ok n ∧ (pushToRemote envP).sizeBytes = some n) ∧
        ∃ b, uploadWithToken envP.uploadEvent = Except.ok b ∧
          (pushToRemote envP).downloadUrl = b.download_url ∧
          (pushToRemote envP).filename = b.filename ∧
          (pushToRemote envP).expiresInHours = b.expires_in_hours))
  ∧ (((uploadDirectFile envD).success = false ∧ ∃ m, (uploadDirectFile envD).error = some m) ∨
      ((uploadDirectFile envD).success = true ∧
        (uploadDirectFile envD).sizeBytes = some envD.fileSize ∧
        ∃ b, uploadWithToken envD.uploadEvent = Except.ok b ∧
          (uploadDirectFile envD).downloadUrl = b.download_url ∧
          (uploadDirectFile envD).filename = b.filename ∧
          (uploadDirectFile envD).expiresInHours = b.expires_in_hours))
  ∧ (((uploadParquetBuffer envB).success = false ∧
        ∃ m, (uploadParquetBuffer envB).error = some m) ∨
      ((uploadParquetBuffer envB).success = true ∧
        (uploadParquetBuffer envB).sizeBytes = some envB.bufferLength ∧
        ∃ b, uploadWithToken envB.uploadEvent = Except.ok b ∧
          (uploadParquetBuffer envB).downloadUrl = b.download_url ∧
          (uploadParquetBuffer envB).filename = b.filename ∧
          (uploadParquetBuffer envB).expiresInHours = b.expires_in_hours))
  ∧ (¬ (fileExtension envD.fileName = "parquet" ∨ fileExtension envD.fileName = "duckdb" ∨
        fileExtension envD.fileName = "db") →
      uploadDirectFile envD
        = { success := false,
            error := some "Only .parquet and .duckdb files are supported for direct upload" }) := by
  refine ⟨?_, ?_, ?_, ?_⟩
  · obtain ⟨er, tr, ue⟩ := envP
    cases er with
    | error m => exact Or.inl ⟨rfl, m, rfl⟩
    | ok n =>
      cases tr with
      | error m => exact Or.inl ⟨rfl, m, rfl⟩
      | ok u =>
        cases hu : uploadWithToken ue with
        | error m =>
          refine Or.inl ⟨?_, m, ?_⟩ <;> simp [pushToRemote, hu]
        | ok b =>
          refine Or.inr ⟨?_, ⟨n, rfl, ?_⟩, b, rfl, ?_, ?_, ?_⟩ <;> simp [pushToRemote, hu]
  · obtain ⟨fn, fs, tr, ue⟩ := envD
    by_cases hext : fileExtension fn = "parquet" ∨ (fileExtension fn = "duckdb" ∨
        fileExtension fn = "db")
    · cases tr with
      | error m =>
        refine Or.inl ⟨?_, m, ?_⟩ <;> simp [uploadDirectFile, hext]
      | ok u =>
        cases hu : uploadWithToken ue with
        | error m =>
          refine Or.inl ⟨?_, m, ?_⟩ <;> simp [uploadDirectFile, hext, hu]
        | ok b =>
          refine Or.inr ⟨?_, ?_, b, rfl, ?_, ?_, ?_⟩ <;> simp [uploadDirectFile, hext, hu]
    · refine Or.inl ⟨?_, "Only .parquet and .duckdb files are supported for direct upload", ?_⟩ <;>
        simp [uploadDirectFile, hext]
  · obtain ⟨bl, tr, ue⟩ := envB
    cases tr with
    | error m => exact Or.inl ⟨rfl, m, rfl⟩
    | ok u =>
      cases hu : uploadWithToken ue with
      | error m =>
        refine Or.inl ⟨?_, m, ?_⟩ <;> simp [uploadParquetBuffer, hu]
      | ok b =>
        refine Or.inr ⟨?_, ?_, b, rfl, ?_, ?_, ?_⟩ <;> simp [uploadParquetBuffer, hu]
  · intro h
    obtain ⟨fn, fs, tr, ue⟩ := envD
    simp only [uploadDirectFile]
    rw [if_pos]
    intro hor
    exact h (by tauto)

/-- Witness for C10: an unsupported `.csv` direct upload resolves to the
failure result with the unsupported-extension message. -/
theorem C10_resolve_shape_witness :
    uploadDirectFile ⟨"data.csv", 10, Except.ok (), XhrEvent.networkError⟩
      = { success := false,
          error := some "Only .parquet and .duckdb files are supported for direct upload" } :=
  (C10_resolve_shape ⟨Except.ok 0, Except.ok (), XhrEvent.networkError⟩
    ⟨"data.csv", 10, Except.ok (), XhrEvent.networkError⟩
    ⟨0, Except.ok (), XhrEvent.networkError⟩).2.2.2 (by decide)

end DuckIt
